import Mathlib

/-!
Verification of the Request Authentication & Quota-Enforcement Gateway
(backend/app/services/auth.py and backend/app/routers/api_keys.py).

Modelling conventions:
* Python strings are Lean `String`s; Python string primitives (slicing,
  `startswith`) are embedded as functions on the underlying character list.
* Timestamps (`time.time()`, `datetime`) are modelled in whole seconds as
  `Nat`; all arithmetic the gateway performs on times is integral
  (`now // 60`, `now % 60`, comparisons).
* `hashlib.sha256(...).hexdigest()` is an external primitive, so every
  function that uses it is parametrised by an abstract digest
  `sha256hex : String → String`; `jose.jwt.decode` is likewise abstracted
  as `decodeJwt : String → Option JwtPayload`.
* `raise HTTPException(...)` is modelled as an `Except HTTPExc` outcome;
  mutation of the module-level `rate_limit_store` and of the persistent
  `api_keys` table is modelled by explicit state passing (the dictionaries
  become association lists, threaded in and out of each function).
-/

/-- Embedding of Python `s.startswith(pre)`. -/
def pyStartsWith (s pre : String) : Bool :=
  pre.data.isPrefixOf s.data

/-- Embedding of Python slicing `s[:n]`. -/
def pyTake (s : String) (n : Nat) : String :=
  String.mk (s.data.take n)

/-- Embedding of Python slicing `s[:-n]` (for `n ≤ len(s)`). -/
def pyDropRight (s : String) (n : Nat) : String :=
  String.mk (s.data.take (s.data.length - n))

/-- Outcome of `raise HTTPException(status_code=..., detail=..., headers=...)`;
`retryAfter` models the optional `Retry-After` response header (in seconds). -/
structure HTTPExc where
  status : Nat
  detail : String
  retryAfter : Option Nat
deriving Repr, DecidableEq

/-- Source `generate_api_key` (auth.py:22-34), parametrised by the digest
and by the random hex string that `secrets.token_hex(32)` produced.
Returns `(full_key, key_prefix, key_hash)`. -/
def generate_api_key (sha256hex : String → String) (random_part : String) :
    String × String × String :=
  let full_key := "nb_live_" ++ random_part
  let key_prefix := "nb_live_" ++ pyTake random_part 8 ++ "..."
  let key_hash := sha256hex full_key
  (full_key, key_prefix , key_hash)

/-- Source `hash_api_key` (auth.py:37-39). -/
def hash_api_key (sha256hex : String → String) (key : String) : String :=
  sha256hex key

/-- Per-credential entry of the module-level `rate_limit_store`
(auth.py:19): the two window tables, each a dict from window index to
count, modelled as association lists with unique keys. -/
structure RateStore where
  minute : List (Nat × Nat)
  day : List (Nat × Nat)
deriving Repr, DecidableEq

/-- Fresh entry produced by the `defaultdict` factory (auth.py:19). -/
def emptyRateStore : RateStore := ⟨[], []⟩

/-- Dict read with default 0: `store[w].get(k, 0)`. -/
def lookupD (tbl : List (Nat × Nat)) (k : Nat) : Nat :=
  (tbl.lookup k).getD 0

/-- Dict write `store[w][k] = v`. -/
def setKey : List (Nat × Nat) → Nat → Nat → List (Nat × Nat)
  | [], k, v => [(k, v)]
  | (k0, v0) :: rest, k, v =>
    if k0 == k then (k, v) :: rest else (k0, v0) :: setKey rest k v

/-- Dict comprehension `{k: v for k, v in tbl.items() if k >= cur - 1}`
(auth.py:54-55); over naturals `k >= cur - 1` is `cur ≤ k + 1`. -/
def cleanWindow (tbl : List (Nat × Nat)) (cur : Nat) : List (Nat × Nat) :=
  tbl.filter (fun kv => decide (cur ≤ kv.1 + 1))

/-- Source `check_rate_limit` (auth.py:42-79) for one credential's store.
Returns the allow/deny outcome together with the store as left behind by
the call (the cleaning at auth.py:54-55 mutates the store even when the
call then denies; the increments at auth.py:76-77 run only when both
checks pass). -/
def check_rate_limit (rpm_limit rpd_limit : Nat) (now : Nat) (store : RateStore) :
    Except HTTPExc Unit × RateStore :=
  let minute_key := now / 60
  let day_key := now / 86400
  let minuteTbl := cleanWindow store.minute minute_key
  let dayTbl := cleanWindow store.day day_key
  let minute_count := lookupD minuteTbl minute_key
  if rpm_limit ≤ minute_count then
    (Except.error ⟨429, "Rate limit exceeded: " ++ toString rpm_limit ++
        " requests per minute", some (60 - now % 60)⟩,
      ⟨minuteTbl, dayTbl⟩)
  else
    let day_count := lookupD dayTbl day_key
    if rpd_limit ≤ day_count then
      (Except.error ⟨429, "Rate limit exceeded: " ++ toString rpd_limit ++
          " requests per day", some (86400 - now % 86400)⟩,
        ⟨minuteTbl, dayTbl⟩)
    else
      (Except.ok (),
        ⟨setKey minuteTbl minute_key (minute_count + 1),
          setKey dayTbl day_key (day_count + 1)⟩)

/-- Row of the `api_keys` table as read by auth.py and api_keys.py. -/
structure ApiKeyRecord where
  id : String
  user_id : String
  key_hash : String
  key_prefix : String
  scopes : List String
  rate_limit_rpm : Nat
  rate_limit_rpd : Nat
  is_active : Bool
  expires_at : Option Nat
  allowed_ips : Option (List String)
  total_requests : Nat
  last_used_at : Option Nat
  updated_at : Option Nat
deriving Repr, DecidableEq

/-- The user dict returned by `validate_api_key` / `validate_jwt`
(auth.py:134-141, 163-170). -/
structure UserCtx where
  id : String
  email : Option String
  token : Option String
  api_key_id : Option String
  api_key_scopes : List String
  auth_method : String
deriving Repr, DecidableEq

/-- Outcome of `validate_api_key`: `None`, a raised `HTTPException`, or a
user dict. -/
inductive ValidateResult where
  | noUser : ValidateResult
  | err : HTTPExc → ValidateResult
  | user : UserCtx → ValidateResult
deriving Repr, DecidableEq

/-- Expiry test of auth.py:103-110 (`expires_at` truthy and in the past). -/
def isExpired (r : ApiKeyRecord) (now : Nat) : Bool :=
  match r.expires_at with
  | some e => decide (e < now)
  | none => false

/-- IP-allowlist test of auth.py:112-116: `allowed_ips` truthy (non-None,
non-empty), `client_ip` truthy (client present, non-empty host), and the
host not in the list. -/
def ipBlocked (r : ApiKeyRecord) (clientIp : Option String) : Bool :=
  match r.allowed_ips with
  | some ips =>
    !ips.isEmpty &&
      (match clientIp with
       | some ip => !(ip == "") && !(ips.contains ip)
       | none => false)
  | none => false

/-- User dict built on the API-key path (auth.py:134-141). -/
def apiKeyUser (r : ApiKeyRecord) : UserCtx :=
  ⟨r.user_id, none, none, some r.id, r.scopes, "api_key"⟩

/-- Supabase lookup `select("*").eq("key_hash", h)` followed by
`result.data[0]` (auth.py:91-96): first row whose hash matches. -/
def findByHash (db : List ApiKeyRecord) (h : String) : Option ApiKeyRecord :=
  (db.filter (fun r => r.key_hash == h)).head?

/-- Supabase update of auth.py:126-129: set `last_used_at` and bump
`total_requests` on the row(s) with the given record's id. -/
def recordUse (db : List ApiKeyRecord) (r : ApiKeyRecord) (now : Nat) :
    List ApiKeyRecord :=
  db.map (fun q =>
    if q.id == r.id then
      { q with last_used_at := some now, total_requests := r.total_requests + 1 }
    else q)

/-- Global `rate_limit_store` keyed by api-key id. -/
abbrev RateMap := List (String × RateStore)

/-- Read of the `defaultdict` (auth.py:51). -/
def getStore (m : RateMap) (id : String) : RateStore :=
  (m.lookup id).getD emptyRateStore

/-- Write-back of one credential's store into the global map. -/
def setStore : RateMap → String → RateStore → RateMap
  | [], id, s => [(id, s)]
  | (k, v) :: rest, id, s =>
    if k == id then (k, s) :: rest else (k, v) :: setStore rest id s

/-- Source `validate_api_key` (auth.py:82-141). State threaded: the
`api_keys` table and the global rate map. On a rate-limit denial the
cleaned store has already been written back (the Python dict was mutated
in place before the raise); on the earlier denials `check_rate_limit`
never ran, so the rate map is unchanged. -/
def validate_api_key (sha256hex : String → String) (db : List ApiKeyRecord)
    (api_key : String) (clientIp : Option String) (now : Nat) (rl : RateMap) :
    ValidateResult × List ApiKeyRecord × RateMap :=
  if api_key == "" || !pyStartsWith api_key "nb_live_" then
    (ValidateResult.noUser, db, rl)
  else
    match findByHash db (hash_api_key sha256hex api_key) with
    | none => (ValidateResult.noUser, db, rl)
    | some r =>
      if !r.is_active then
        (ValidateResult.err ⟨401, "API key is disabled", none⟩, db, rl)
      else if isExpired r now then
        (ValidateResult.err ⟨401, "API key has expired", none⟩, db, rl)
      else if ipBlocked r clientIp then
        (ValidateResult.err ⟨403, "IP address not allowed", none⟩, db, rl)
      else
        match check_rate_limit r.rate_limit_rpm r.rate_limit_rpd now (getStore rl r.id) with
        | (Except.error e, store2) =>
          (ValidateResult.err e, db, setStore rl r.id store2)
        | (Except.ok _, store2) =>
          (ValidateResult.user (apiKeyUser r), recordUse db r now, setStore rl r.id store2)

/-- Claims object decoded by `jose.jwt.decode` (auth.py:147-155); `sub`
and `email` are read with `payload.get`, hence optional. -/
structure JwtPayload where
  sub : Option String
  email : Option String
deriving Repr, DecidableEq

/-- Source `validate_jwt` (auth.py:144-174), parametrised by the decode
primitive (`none` models both `JWTError` and any other decode failure). -/
def validate_jwt (decodeJwt : String → Option JwtPayload) (token : String) :
    Option UserCtx :=
  match decodeJwt token with
  | none => none
  | some p =>
    match p.sub with
    | none => none
    | some uid =>
      if uid == "" then none
      else some ⟨uid, p.email, some token, none, ["*"], "jwt"⟩

/-- Source `get_current_user` (auth.py:177-203). `x_api_key` is the value
injected by `APIKeyHeader(auto_error=False)`, which yields `None` for an
absent or empty header, so `if x_api_key:` is the `Option` match;
`credentials` likewise carries the bearer token when an
`Authorization: Bearer` header parsed. -/
def get_current_user (sha256hex : String → String)
    (decodeJwt : String → Option JwtPayload) (db : List ApiKeyRecord)
    (x_api_key : Option String) (credentials : Option String)
    (clientIp : Option String) (now : Nat) (rl : RateMap) :
    Except HTTPExc UserCtx × List ApiKeyRecord × RateMap :=
  match x_api_key with
  | some k =>
    match validate_api_key sha256hex db k clientIp now rl with
    | (ValidateResult.user u, db2, rl2) => (Except.ok u, db2, rl2)
    | (ValidateResult.noUser, db2, rl2) =>
      (Except.error ⟨401, "Invalid API key", none⟩, db2, rl2)
    | (ValidateResult.err e, db2, rl2) => (Except.error e, db2, rl2)
  | none =>
    match credentials with
    | some tok =>
      match validate_jwt decodeJwt tok with
      | some u => (Except.ok u, db, rl)
      | none => (Except.error ⟨401, "Invalid token", none⟩, db, rl)
    | none =>
      (Except.error ⟨401,
        "Authentication required. Provide either X-API-Key header or Authorization: Bearer token",
        none⟩, db, rl)

/-- Body of the dependency returned by `require_scope` (auth.py:227-249). -/
def check_scope (required_scope : String) (user : UserCtx) :
    Except HTTPExc UserCtx :=
  let scopes := user.api_key_scopes
  if scopes.contains "*" then Except.ok user
  else if required_scope == "read" && scopes.contains "read" then Except.ok user
  else if !(scopes.contains required_scope) then
    Except.error ⟨403, "API key lacks required scope: " ++ required_scope, none⟩
  else Except.ok user

/-- Body of the dependency returned by `require_jwt_auth` (auth.py:252-265). -/
def check_jwt (user : UserCtx) : Except HTTPExc UserCtx :=
  if user.auth_method == "api_key" then
    Except.error ⟨403, "This operation requires JWT authentication, not API key", none⟩
  else Except.ok user

/-- Source `rotate_api_key` (api_keys.py:233-278), parametrised like
`generate_api_key`. Returns the updated table and the new full key. -/
def rotate_api_key (sha256hex : String → String) (random_part : String)
    (db : List ApiKeyRecord) (key_id uid : String) (now : Nat) :
    Except HTTPExc (List ApiKeyRecord × String) :=
  let existing := db.filter (fun r => r.id == key_id && r.user_id == uid)
  match existing.head? with
  | none => Except.error ⟨404, "API key not found", none⟩
  | some _ =>
    let g := generate_api_key sha256hex random_part
    let db2 := db.map (fun r =>
      if r.id == key_id && r.user_id == uid then
        { r with key_prefix := g.2.1, key_hash := g.2.2, updated_at := some now }
      else r)
    Except.ok (db2, g.1)

/-- Sequence of `validate_api_key` calls for one presented key, one call
per timestamp in the list, threading the table and the rate map. -/
def validateSeqAt (sha256hex : String → String) (api_key : String)
    (clientIp : Option String) :
    List Nat → List ApiKeyRecord → RateMap → List ValidateResult
  | [], _, _ => []
  | t :: ts, db, rl =>
    match validate_api_key sha256hex db api_key clientIp t rl with
    | (res, db2, rl2) => res :: validateSeqAt sha256hex api_key clientIp ts db2 rl2

/-- Configuration fields of a key record that drive admission decisions:
everything except the usage-tracking fields (`total_requests`,
`last_used_at`, `updated_at`) that `recordUse` and rotation bookkeeping
mutate. -/
def sameConfig (a b : ApiKeyRecord) : Prop :=
  a.id = b.id ∧ a.user_id = b.user_id ∧ a.key_hash = b.key_hash ∧
  a.scopes = b.scopes ∧ a.rate_limit_rpm = b.rate_limit_rpm ∧
  a.rate_limit_rpd = b.rate_limit_rpd ∧ a.is_active = b.is_active ∧
  a.expires_at = b.expires_at ∧ a.allowed_ips = b.allowed_ips

/-- Rate store holding count `c` in both windows at the given indices:
the shape reached after `c` admitted calls inside one minute window
starting from a fresh store. -/
def mkStoreC (m dk c : Nat) : RateStore :=
  if c = 0 then ⟨[], []⟩ else ⟨[(m, c)], [(dk, c)]⟩

/-! ## Helper lemmas -/

lemma mem_cleanWindow {kv : Nat × Nat} {tbl : List (Nat × Nat)} {cur : Nat}
    (h : kv ∈ cleanWindow tbl cur) : cur ≤ kv.1 + 1 := by
  have h2 := (List.mem_filter.mp h).2
  simpa using h2

lemma mem_setKey : ∀ (tbl : List (Nat × Nat)) (k v : Nat) (kv : Nat × Nat),
    kv ∈ setKey tbl k v → kv.1 = k ∨ kv ∈ tbl := by
  intro tbl
  induction tbl with
  | nil =>
    intro k v kv h
    simp only [setKey, List.mem_singleton] at h
    left
    rw [h]
  | cons hd tl ih =>
    obtain ⟨k0, v0⟩ := hd
    intro k v kv h
    simp only [setKey] at h
    split at h
    · rcases List.mem_cons.mp h with h1 | h1
      · left; rw [h1]
      · right; exact List.mem_cons_of_mem _ h1
    · rcases List.mem_cons.mp h with h1 | h1
      · right; rw [h1]; exact List.mem_cons_self _ _
      · rcases ih k v kv h1 with h2 | h2
        · left; exact h2
        · right; exact List.mem_cons_of_mem _ h2

lemma check_rate_limit_snd (rpm rpd now : Nat) (store : RateStore) :
    (check_rate_limit rpm rpd now store).2 =
        ⟨cleanWindow store.minute (now / 60), cleanWindow store.day (now / 86400)⟩
      ∨ (check_rate_limit rpm rpd now store).2 =
        ⟨setKey (cleanWindow store.minute (now / 60)) (now / 60)
            (lookupD (cleanWindow store.minute (now / 60)) (now / 60) + 1),
          setKey (cleanWindow store.day (now / 86400)) (now / 86400)
            (lookupD (cleanWindow store.day (now / 86400)) (now / 86400) + 1)⟩ := by
  simp only [check_rate_limit]
  split
  · left; rfl
  · split
    · left; rfl
    · right; rfl

/-! ## Claim theorems -/

/-- C1 (counterexample): with per-minute limit 5, per-day limit 1, one
day-window slot already consumed and a fresh minute window, the call at
`now = 30` passes the minute check, is denied by the day check, and the
minute-window counter for the current minute index is still 0 — it was
NOT incremented, contradicting the claim that a denied day-level request
consumes one minute-level slot. -/
theorem claim_C1_counterexample :
    (check_rate_limit 5 1 30 ⟨[], [(0, 1)]⟩).1 =
      Except.error ⟨429, "Rate limit exceeded: 1 requests per day", some 86370⟩
    ∧ lookupD (check_rate_limit 5 1 30 ⟨[], [(0, 1)]⟩).2.minute (30 / 60) = 0 := by
  constructor
  · rfl
  · rfl

/-- C1 (amended): for every Admit call where the minute-window check
passes but the day-window check denies, the minute-window counter for the
current minute index has NOT been incremented: both window tables are
left at their cleaned pre-increment values (the source increments both
counters only after both checks pass), so a denied day-level request
consumes no minute-level slot. -/
theorem claim_C1 (rpm rpd now : Nat) (store : RateStore)
    (h1 : lookupD (cleanWindow store.minute (now / 60)) (now / 60) < rpm)
    (h2 : rpd ≤ lookupD (cleanWindow store.day (now / 86400)) (now / 86400)) :
    check_rate_limit rpm rpd now store =
      (Except.error ⟨429, "Rate limit exceeded: " ++ toString rpd ++
          " requests per day", some (86400 - now % 86400)⟩,
        ⟨cleanWindow store.minute (now / 60), cleanWindow store.day (now / 86400)⟩)
    ∧ lookupD (check_rate_limit rpm rpd now store).2.minute (now / 60) =
        lookupD (cleanWindow store.minute (now / 60)) (now / 60) := by
  have hmc : ¬ (rpm ≤ lookupD (cleanWindow store.minute (now / 60)) (now / 60)) := by
    omega
  have heq : check_rate_limit rpm rpd now store =
      (Except.error ⟨429, "Rate limit exceeded: " ++ toString rpd ++
          " requests per day", some (86400 - now % 86400)⟩,
        ⟨cleanWindow store.minute (now / 60), cleanWindow store.day (now / 86400)⟩) := by
    simp only [check_rate_limit]
    rw [if_neg hmc, if_pos h2]
  exact ⟨heq, by rw [heq]⟩

/-- C1 witness. -/
theorem claim_C1_witness :
    check_rate_limit 5 1 30 ⟨[], [(0, 1)]⟩ =
      (Except.error ⟨429, "Rate limit exceeded: " ++ toString 1 ++
          " requests per day", some (86400 - 30 % 86400)⟩,
        ⟨cleanWindow ([] : List (Nat × Nat)) (30 / 60),
          cleanWindow [(0, 1)] (30 / 86400)⟩)
    ∧ lookupD (check_rate_limit 5 1 30 ⟨[], [(0, 1)]⟩).2.minute (30 / 60) =
        lookupD (cleanWindow ([] : List (Nat × Nat)) (30 / 60)) (30 / 60) :=
  claim_C1 5 1 30 ⟨[], [(0, 1)]⟩ (by decide) (by decide)

/-- C8: after every Admit call (allowed or denied), every window index
remaining in the credential's minute table is at least the current minute
index minus one, and every index in its day table is at least the current
day index minus one (over naturals, `k ≥ cur - 1` is `cur ≤ k + 1`):
counters more than one window behind are evicted on every call. -/
theorem claim_C8 (rpm rpd now : Nat) (store : RateStore) (kv : Nat × Nat) :
    (kv ∈ (check_rate_limit rpm rpd now store).2.minute → now / 60 ≤ kv.1 + 1)
    ∧ (kv ∈ (check_rate_limit rpm rpd now store).2.day → now / 86400 ≤ kv.1 + 1) := by
  rcases check_rate_limit_snd rpm rpd now store with h | h <;> rw [h]
  · exact ⟨fun hm => mem_cleanWindow hm, fun hm => mem_cleanWindow hm⟩
  · constructor
    · intro hm
      rcases mem_setKey _ _ _ _ hm with h1 | h1
      · omega
      · exact mem_cleanWindow h1
    · intro hm
      rcases mem_setKey _ _ _ _ hm with h1 | h1
      · omega
      · exact mem_cleanWindow h1

/-- C8 witness: a concrete allowed call at `now = 120` with a stale
minute entry evicted and a live day entry retained. -/
theorem claim_C8_witness :
    ((2, 1) ∈ (check_rate_limit 10 10 120 ⟨[(0, 5)], [(0, 3)]⟩).2.minute
      ∧ 120 / 60 ≤ 2 + 1)
    ∧ ((0, 4) ∈ (check_rate_limit 10 10 120 ⟨[(0, 5)], [(0, 3)]⟩).2.day
      ∧ 120 / 86400 ≤ 0 + 1) :=
  ⟨⟨by decide, (claim_C8 10 10 120 ⟨[(0, 5)], [(0, 3)]⟩ (2, 1)).1 (by decide)⟩,
    ⟨by decide, (claim_C8 10 10 120 ⟨[(0, 5)], [(0, 3)]⟩ (0, 4)).2 (by decide)⟩⟩

/-- C3: a bearer-only operation (`require_jwt_auth`) denies every
AuthContext whose method is `api_key` with 403 Forbidden, regardless of
its scopes (the check never reads them), and allows every AuthContext
whose method is `jwt` (the bearer path's method string). -/
theorem claim_C3 (u : UserCtx) :
    (u.auth_method = "api_key" →
      check_jwt u =
        Except.error ⟨403, "This operation requires JWT authentication, not API key", none⟩)
    ∧ (u.auth_method = "jwt" → check_jwt u = Except.ok u) := by
  constructor
  · intro h
    simp [check_jwt, h]
  · intro h
    simp [check_jwt, h]

/-- C3 witness: an api-key context with the wildcard scope is denied; a
bearer (jwt) context is allowed. -/
theorem claim_C3_witness :
    check_jwt ⟨"u1", none, none, some "k1", ["*"], "api_key"⟩ =
      Except.error ⟨403, "This operation requires JWT authentication, not API key", none⟩
    ∧ check_jwt ⟨"u1", some "e", some "t", none, ["*"], "jwt"⟩ =
      Except.ok ⟨"u1", some "e", some "t", none, ["*"], "jwt"⟩ :=
  ⟨(claim_C3 _).1 rfl, (claim_C3 _).2 rfl⟩

/-- C6: the scope check allows when the granted set contains the wildcard
token, allows when it contains the required scope itself (including
`required = "read"` with `"read"` granted), and otherwise denies with a
403 whose message names the missing scope. -/
theorem claim_C6 (u : UserCtx) (s : String) :
    (u.api_key_scopes.contains "*" = true → check_scope s u = Except.ok u)
    ∧ (u.api_key_scopes.contains s = true → check_scope s u = Except.ok u)
    ∧ (u.api_key_scopes.contains "*" = false → u.api_key_scopes.contains s = false →
        check_scope s u =
          Except.error ⟨403, "API key lacks required scope: " ++ s, none⟩) := by
  refine ⟨?_, ?_, ?_⟩
  · intro h
    have h1 : "*" ∈ u.api_key_scopes := by simpa using h
    simp [check_scope, h1]
  · intro h
    have h1 : s ∈ u.api_key_scopes := by simpa using h
    by_cases hw : "*" ∈ u.api_key_scopes
    · simp [check_scope, hw]
    · by_cases hr : s = "read"
      · subst hr
        simp [check_scope, hw, h1]
      · simp [check_scope, hw, h1, hr]
  · intro hw hs
    have hw1 : "*" ∉ u.api_key_scopes := by simpa using hw
    have hs1 : s ∉ u.api_key_scopes := by simpa using hs
    by_cases hr : s = "read"
    · subst hr
      simp [check_scope, hw1, hs1]
    · simp [check_scope, hw1, hs1, hr]

/-- C6 witness: the spec's two scenarios,
`Check(["notebooks"], "chat")` denies naming `"chat"` and
`Check(["*"], "chat")` allows. -/
theorem claim_C6_witness :
    check_scope "chat" ⟨"u1", none, none, some "k1", ["notebooks"], "api_key"⟩ =
      Except.error ⟨403, "API key lacks required scope: " ++ "chat", none⟩
    ∧ check_scope "chat" ⟨"u1", none, none, some "k1", ["*"], "api_key"⟩ =
      Except.ok ⟨"u1", none, none, some "k1", ["*"], "api_key"⟩ :=
  ⟨(claim_C6 _ "chat").2.2 (by decide) (by decide), (claim_C6 _ "chat").1 (by decide)⟩

/-- C5: resolution takes the API-key path whenever an API-key header is
present — the outcome is independent of any simultaneously-present bearer
token, an invalid API key terminates in 401 "Invalid API key" without
falling back to the bearer path — and when neither header is present it
terminates in the Unauthenticated 401. -/
theorem claim_C5 (sha256hex : String → String)
    (decodeJwt : String → Option JwtPayload) (db : List ApiKeyRecord)
    (k : String) (cred : Option String) (ip : Option String) (now : Nat)
    (rl : RateMap) :
    get_current_user sha256hex decodeJwt db (some k) cred ip now rl =
      get_current_user sha256hex decodeJwt db (some k) none ip now rl
    ∧ get_current_user sha256hex decodeJwt db none none ip now rl =
      (Except.error ⟨401,
        "Authentication required. Provide either X-API-Key header or Authorization: Bearer token",
        none⟩, db, rl)
    ∧ ((validate_api_key sha256hex db k ip now rl).1 = ValidateResult.noUser →
        (get_current_user sha256hex decodeJwt db (some k) cred ip now rl).1 =
          Except.error ⟨401, "Invalid API key", none⟩) := by
  refine ⟨rfl, rfl, ?_⟩
  intro h
  rcases hv : validate_api_key sha256hex db k ip now rl with ⟨res, db2, rl2⟩
  rw [hv] at h
  simp only at h
  subst h
  simp [get_current_user, hv]

/-- C5 witness: an unknown key (empty table) yields 401 "Invalid API key"
even with a bearer token also present. -/
theorem claim_C5_witness :
    (get_current_user (fun s => s) (fun _ => none) [] (some "nb_live_x")
        (some "tok") none 0 []).1 =
      Except.error ⟨401, "Invalid API key", none⟩ :=
  (claim_C5 (fun s => s) (fun _ => none) [] "nb_live_x" (some "tok") none 0 []).2.2
    (by decide)

/-- C7: for every digest function and random part, `generate_api_key`
returns a full secret that begins with the public prefix `"nb_live_"`
(and is non-empty, so it passes the format check of auth.py:84), a
display prefix that is the ellipsis-marked truncation of the full secret
(dropping the trailing `"..."` yields a prefix of the full secret), and a
stored hash equal to `hash_api_key` applied to the full secret, so a
fresh secret's hash lookup matches the stored record. -/
theorem claim_C7 (sha256hex : String → String) (random_part : String) :
    pyStartsWith (generate_api_key sha256hex random_part).1 "nb_live_" = true
    ∧ (generate_api_key sha256hex random_part).1 ≠ ""
    ∧ (generate_api_key sha256hex random_part).2.1 =
        pyDropRight (generate_api_key sha256hex random_part).2.1 3 ++ "..."
    ∧ pyStartsWith (generate_api_key sha256hex random_part).1
        (pyDropRight (generate_api_key sha256hex random_part).2.1 3) = true
    ∧ hash_api_key sha256hex (generate_api_key sha256hex random_part).1 =
        (generate_api_key sha256hex random_part).2.2 := by
  have hdata : ((generate_api_key sha256hex random_part).2.1).data =
      ("nb_live_".data ++ random_part.data.take 8) ++ "...".data := by
    show ("nb_live_" ++ pyTake random_part 8 ++ "...").data = _
    rw [String.data_append, String.data_append, List.append_assoc]
    rfl
  have hdrop : pyDropRight (generate_api_key sha256hex random_part).2.1 3 =
      String.mk ("nb_live_".data ++ random_part.data.take 8) := by
    apply String.ext
    show (((generate_api_key sha256hex random_part).2.1).data).take
        ((((generate_api_key sha256hex random_part).2.1).data).length - 3) = _
    rw [hdata]
    have hlen : (("nb_live_".data ++ random_part.data.take 8) ++ "...".data).length - 3 =
        ("nb_live_".data ++ random_part.data.take 8).length := by
      simp [List.length_append]
    rw [hlen, List.take_left]
  refine ⟨?_, ?_, ?_, ?_, rfl⟩
  · show ("nb_live_".data).isPrefixOf (("nb_live_" ++ random_part).data) = true
    rw [String.data_append]
    exact List.isPrefixOf_iff_prefix.mpr (List.prefix_append _ _)
  · intro h
    have h1 : "nb_live_" ++ random_part = "" := h
    have h2 := congrArg String.data h1
    rw [String.data_append] at h2
    have h3 : "nb_live_".data = [] := (List.append_eq_nil.mp h2).1
    simp at h3
  · apply String.ext
    rw [hdrop, String.data_append, hdata]
  · rw [hdrop]
    show (("nb_live_".data ++ random_part.data.take 8)).isPrefixOf
        (("nb_live_" ++ random_part).data) = true
    rw [String.data_append]
    exact List.isPrefixOf_iff_prefix.mpr
      ((List.prefix_append_right_inj _).mpr (List.take_prefix _ _))

lemma ipBlocked_none (r : ApiKeyRecord) : ipBlocked r none = false := by
  unfold ipBlocked
  cases r.allowed_ips <;> simp

lemma check_rate_limit_fst (rpm rpd now : Nat) (store : RateStore) :
    (check_rate_limit rpm rpd now store).1 = Except.ok ()
    ∨ ∃ e, (check_rate_limit rpm rpd now store).1 = Except.error e ∧ e.status = 429 := by
  simp only [check_rate_limit]
  split
  · right
    exact ⟨_, rfl, rfl⟩
  · split
    · right
      exact ⟨_, rfl, rfl⟩
    · left
      rfl

/-- C10: when a key record has a non-empty `allowed_ips` list but the
request's client source address is unavailable (`request.client is None`),
validation skips the allowlist check entirely — it never returns the 403
"IP address not allowed", it writes the rate-limiter state back exactly as
`check_rate_limit` leaves it, and its outcome is the rate-limit outcome:
the authenticated user dict when admitted, the rate-limit error when
denied. -/
theorem claim_C10 (sha256hex : String → String) (db : List ApiKeyRecord)
    (api_key : String) (now : Nat) (rl : RateMap) (r : ApiKeyRecord)
    (ips : List String)
    (hk : (api_key == "" || !pyStartsWith api_key "nb_live_") = false)
    (hfind : findByHash db (hash_api_key sha256hex api_key) = some r)
    (hact : r.is_active = true)
    (hexp : isExpired r now = false)
    (hips : r.allowed_ips = some ips)
    (hne : ips ≠ []) :
    (validate_api_key sha256hex db api_key none now rl).1 ≠
        ValidateResult.err ⟨403, "IP address not allowed", none⟩
    ∧ (validate_api_key sha256hex db api_key none now rl).2.2 =
        setStore rl r.id
          (check_rate_limit r.rate_limit_rpm r.rate_limit_rpd now (getStore rl r.id)).2
    ∧ ((check_rate_limit r.rate_limit_rpm r.rate_limit_rpd now (getStore rl r.id)).1 =
          Except.ok () →
        (validate_api_key sha256hex db api_key none now rl).1 =
          ValidateResult.user (apiKeyUser r))
    ∧ (∀ e, (check_rate_limit r.rate_limit_rpm r.rate_limit_rpd now
          (getStore rl r.id)).1 = Except.error e →
        (validate_api_key sha256hex db api_key none now rl).1 =
          ValidateResult.err e) := by
  have hstat := check_rate_limit_fst r.rate_limit_rpm r.rate_limit_rpd now
    (getStore rl r.id)
  rcases hcf : check_rate_limit r.rate_limit_rpm r.rate_limit_rpd now (getStore rl r.id)
    with ⟨res, store2⟩
  rw [hcf] at hstat
  cases res with
  | ok u =>
    have hval : validate_api_key sha256hex db api_key none now rl =
        (ValidateResult.user (apiKeyUser r), recordUse db r now,
          setStore rl r.id store2) := by
      simp [validate_api_key, hk, hfind, hact, hexp, ipBlocked_none, hcf]
    refine ⟨?_, ?_, ?_, ?_⟩
    · rw [hval]
      simp
    · rw [hval]
    · intro h
      rw [hval]
    · intro e h
      simp at h
  | error e0 =>
    have hval : validate_api_key sha256hex db api_key none now rl =
        (ValidateResult.err e0, db, setStore rl r.id store2) := by
      simp [validate_api_key, hk, hfind, hact, hexp, ipBlocked_none, hcf]
    have h429 : e0.status = 429 := by
      rcases hstat with hok | ⟨e2, he2, hs⟩
      · simp at hok
      · have he3 : e0 = e2 := by simpa using he2
        rw [he3]
        exact hs
    refine ⟨?_, ?_, ?_, ?_⟩
    · rw [hval]
      intro heq
      simp only [ValidateResult.err.injEq] at heq
      rw [heq] at h429
      simp at h429
    · rw [hval]
    · intro h
      simp at h
    · intro e h
      have he : e0 = e := by simpa using h
      rw [hval, he]

/-- C10 witness: a key allowlisted to 10.0.0.1 presented with no client
address is admitted (not Forbidden). -/
theorem claim_C10_witness :
    (validate_api_key (fun s => s)
        [⟨"id1", "u1", "nb_live_x", "p", ["*"], 1, 1, true, none,
          some ["10.0.0.1"], 0, none, none⟩]
        "nb_live_x" none 0 []).1 =
      ValidateResult.user (apiKeyUser
        ⟨"id1", "u1", "nb_live_x", "p", ["*"], 1, 1, true, none,
          some ["10.0.0.1"], 0, none, none⟩) :=
  (claim_C10 (fun s => s)
      [⟨"id1", "u1", "nb_live_x", "p", ["*"], 1, 1, true, none,
        some ["10.0.0.1"], 0, none, none⟩]
      "nb_live_x" 0 []
      ⟨"id1", "u1", "nb_live_x", "p", ["*"], 1, 1, true, none,
        some ["10.0.0.1"], 0, none, none⟩
      ["10.0.0.1"] (by decide) (by decide) (by decide) (by decide) (by decide)
      (by decide)).2.2.1 (by rfl)

lemma validate_not_found (sha256hex : String → String) (db : List ApiKeyRecord)
    (api_key : String) (ip : Option String) (t : Nat) (rl : RateMap)
    (hfindnone : findByHash db (hash_api_key sha256hex api_key) = none) :
    (validate_api_key sha256hex db api_key ip t rl).1 = ValidateResult.noUser := by
  by_cases hfmt : (api_key == "" || !pyStartsWith api_key "nb_live_") = true
  · simp [validate_api_key, hfmt]
  · rw [Bool.not_eq_true] at hfmt
    simp [validate_api_key, hfmt, hfindnone]

/-- C4: after a successful rotation the stored hash of the rotated key is
replaced by the hash of the newly generated secret, so — provided the old
secret's hash identified only the rotated record and the new hash differs
from the old one — a lookup by the old secret's hash finds no record and
any later request presenting the pre-rotation plaintext secret resolves
to `InvalidCredential` (`validate_api_key` returns `None`). -/
theorem claim_C4 (sha256hex : String → String) (random_part : String)
    (db : List ApiKeyRecord) (key_id uid : String) (now : Nat)
    (old_key : String)
    (hold : ∀ q ∈ db, q.key_hash = hash_api_key sha256hex old_key →
      q.id = key_id ∧ q.user_id = uid)
    (hne : sha256hex ("nb_live_" ++ random_part) ≠ hash_api_key sha256hex old_key)
    (hex : ∃ q ∈ db, q.id = key_id ∧ q.user_id = uid) :
    ∃ db2, rotate_api_key sha256hex random_part db key_id uid now =
        Except.ok (db2, "nb_live_" ++ random_part)
      ∧ findByHash db2 (hash_api_key sha256hex old_key) = none
      ∧ ∀ (ip : Option String) (t : Nat) (rl : RateMap),
          (validate_api_key sha256hex db2 old_key ip t rl).1 = ValidateResult.noUser := by
  obtain ⟨q, hq, hid, huid⟩ := hex
  have hpq : (q.id == key_id && q.user_id == uid) = true := by
    simp [hid, huid]
  have hqf : q ∈ db.filter (fun r => r.id == key_id && r.user_id == uid) :=
    List.mem_filter.mpr ⟨hq, hpq⟩
  rcases hh : (db.filter (fun r => r.id == key_id && r.user_id == uid)).head? with _ | w
  · rw [List.head?_eq_none_iff] at hh
    rw [hh] at hqf
    cases hqf
  · have hnil : ((db.map (fun r =>
        if r.id == key_id && r.user_id == uid then
          { r with
            key_prefix := (generate_api_key sha256hex random_part).2.1
            key_hash := (generate_api_key sha256hex random_part).2.2
            updated_at := some now }
        else r)).filter
          (fun r => r.key_hash == hash_api_key sha256hex old_key)) = [] := by
      rw [List.filter_eq_nil_iff]
      intro a ha
      rcases List.mem_map.mp ha with ⟨b, hb, hab⟩
      by_cases hpb : (b.id == key_id && b.user_id == uid) = true
      · rw [if_pos hpb] at hab
        rw [← hab]
        simpa using hne
      · rw [if_neg hpb] at hab
        rw [← hab]
        intro hbh
        have hbh2 : b.key_hash = hash_api_key sha256hex old_key := by
          simpa using hbh
        have hiu := hold b hb hbh2
        simp [hiu.1, hiu.2] at hpb
    have hfin : findByHash (db.map (fun r =>
        if r.id == key_id && r.user_id == uid then
          { r with
            key_prefix := (generate_api_key sha256hex random_part).2.1
            key_hash := (generate_api_key sha256hex random_part).2.2
            updated_at := some now }
        else r)) (hash_api_key sha256hex old_key) = none := by
      unfold findByHash
      rw [hnil]
      rfl
    refine ⟨_, ?_, hfin, ?_⟩
    · simp only [rotate_api_key, hh]
      rfl
    · intro ip t rl
      exact validate_not_found _ _ _ _ _ _ hfin

/-- C4 witness: rotating the only key with hash of `"nb_live_old"` (digest
modelled as the identity on these inputs) makes a later lookup of the old
secret fail. -/
theorem claim_C4_witness :
    ∃ db2, rotate_api_key (fun s => s) "new"
        [⟨"id1", "u1", "nb_live_old", "p", ["*"], 2, 5, true, none, none, 0,
          none, none⟩] "id1" "u1" 99 =
        Except.ok (db2, "nb_live_" ++ "new")
      ∧ findByHash db2 (hash_api_key (fun s => s) "nb_live_old") = none
      ∧ ∀ (ip : Option String) (t : Nat) (rl : RateMap),
          (validate_api_key (fun s => s) db2 "nb_live_old" ip t rl).1 =
            ValidateResult.noUser :=
  claim_C4 (fun s => s) "new"
    [⟨"id1", "u1", "nb_live_old", "p", ["*"], 2, 5, true, none, none, 0,
      none, none⟩] "id1" "u1" 99 "nb_live_old"
    (by decide) (by decide) (by decide)

lemma sameConfig_refl (a : ApiKeyRecord) : sameConfig a a := by
  unfold sameConfig
  repeat constructor

lemma sameConfig_trans {a b c : ApiKeyRecord} (h1 : sameConfig a b)
    (h2 : sameConfig b c) : sameConfig a c := by
  unfold sameConfig at *
  obtain ⟨e1, e2, e3, e4, e5, e6, e7, e8, e9⟩ := h1
  obtain ⟨f1, f2, f3, f4, f5, f6, f7, f8, f9⟩ := h2
  exact ⟨e1.trans f1, e2.trans f2, e3.trans f3, e4.trans f4, e5.trans f5,
    e6.trans f6, e7.trans f7, e8.trans f8, e9.trans f9⟩

lemma isExpired_congr {a b : ApiKeyRecord} (h : a.expires_at = b.expires_at)
    (t : Nat) : isExpired a t = isExpired b t := by
  unfold isExpired
  rw [h]

lemma ipBlocked_congr {a b : ApiKeyRecord} (h : a.allowed_ips = b.allowed_ips)
    (ip : Option String) : ipBlocked a ip = ipBlocked b ip := by
  unfold ipBlocked
  rw [h]

lemma getStore_setStore (rl : RateMap) (id : String) (s : RateStore) :
    getStore (setStore rl id s) id = s := by
  induction rl with
  | nil => simp [getStore, setStore, List.lookup]
  | cons hd tl ih =>
    obtain ⟨k, v⟩ := hd
    by_cases hk : k = id
    · subst hk
      simp [getStore, setStore, List.lookup]
    · have hknot : ¬ ((k == id) = true) := by simp [hk]
      have hk3 : (id == k) = false := beq_eq_false_iff_ne.mpr (Ne.symm hk)
      simp only [setStore]
      rw [if_neg hknot]
      show (List.lookup id ((k, v) :: setStore tl id s)).getD emptyRateStore = s
      simp only [List.lookup, hk3]
      exact ih

lemma pyStartsWith_append (a b : String) : pyStartsWith (a ++ b) a = true := by
  unfold pyStartsWith
  rw [String.data_append]
  exact List.isPrefixOf_iff_prefix.mpr (List.prefix_append _ _)

lemma nb_append_ne_empty (rp : String) : ("nb_live_" ++ rp) ≠ "" := by
  intro h
  have h2 := congrArg String.data h
  rw [String.data_append] at h2
  have h3 : "nb_live_".data = [] := (List.append_eq_nil.mp h2).1
  simp at h3

lemma key_format_ok (rp : String) :
    (("nb_live_" ++ rp) == "" || !pyStartsWith ("nb_live_" ++ rp) "nb_live_") = false := by
  simp [pyStartsWith_append, nb_append_ne_empty]

lemma check_mkStoreC_allow (rpm rpd t m dk c : Nat) (hm : t / 60 = m)
    (hd : t / 86400 = dk) (hcm : c < rpm) (hcd : c < rpd) :
    check_rate_limit rpm rpd t (mkStoreC m dk c) =
      (Except.ok (), mkStoreC m dk (c + 1)) := by
  subst hm
  subst hd
  by_cases hc : c = 0
  · subst hc
    have h1 : ¬ (rpm ≤ 0) := by omega
    have h2 : ¬ (rpd ≤ 0) := by omega
    simp [check_rate_limit, mkStoreC, cleanWindow, lookupD, setKey, h1, h2]
  · have h1 : ¬ (rpm ≤ c) := by omega
    have h2 : ¬ (rpd ≤ c) := by omega
    have h3 : t / 60 ≤ t / 60 + 1 := Nat.le_succ _
    have h4 : t / 86400 ≤ t / 86400 + 1 := Nat.le_succ _
    simp [check_rate_limit, mkStoreC, cleanWindow, lookupD, setKey, h1, h2, h3, h4, hc]

lemma check_mkStoreC_deny (rpm rpd t m dk c : Nat) (hm : t / 60 = m)
    (hd : t / 86400 = dk) (hge : rpm ≤ c) :
    check_rate_limit rpm rpd t (mkStoreC m dk c) =
      (Except.error ⟨429, "Rate limit exceeded: " ++ toString rpm ++
          " requests per minute", some (60 - t % 60)⟩,
        ⟨cleanWindow (mkStoreC m dk c).minute (t / 60),
          cleanWindow (mkStoreC m dk c).day (t / 86400)⟩) := by
  subst hm
  subst hd
  by_cases hc : c = 0
  · subst hc
    have h1 : rpm ≤ 0 := hge
    simp [check_rate_limit, mkStoreC, cleanWindow, lookupD, h1]
  · have h3 : t / 60 ≤ t / 60 + 1 := Nat.le_succ _
    simp [check_rate_limit, mkStoreC, cleanWindow, lookupD, hge, h3, hc]

lemma validate_step (sha256hex : String → String) (rp : String)
    (ip : Option String) (r r2 : ApiKeyRecord) (db : List ApiKeyRecord)
    (rl : RateMap) (t c : Nat)
    (hfind : findByHash db (hash_api_key sha256hex ("nb_live_" ++ rp)) = some r2)
    (hcfg : sameConfig r r2)
    (hact : r.is_active = true) (hexp : isExpired r t = false)
    (hip : ipBlocked r ip = false)
    (hstore : getStore rl r.id = mkStoreC (t / 60) (t / 86400) c)
    (hcm : c < r.rate_limit_rpm) (hcd : c < r.rate_limit_rpd) :
    validate_api_key sha256hex db ("nb_live_" ++ rp) ip t rl =
      (ValidateResult.user (apiKeyUser r), recordUse db r2 t,
        setStore rl r.id (mkStoreC (t / 60) (t / 86400) (c + 1))) := by
  obtain ⟨hid, huid, hhash, hscopes, hrpm, hrpd, hact0, hexp0, hips0⟩ := hcfg
  have hact2 : r2.is_active = true := by rw [← hact0]; exact hact
  have hexp2 : isExpired r2 t = false := by
    rw [← isExpired_congr hexp0 t]; exact hexp
  have hip2 : ipBlocked r2 ip = false := by
    rw [← ipBlocked_congr hips0 ip]; exact hip
  have hcheck : check_rate_limit r2.rate_limit_rpm r2.rate_limit_rpd t
      (getStore rl r2.id) = (Except.ok (), mkStoreC (t / 60) (t / 86400) (c + 1)) := by
    rw [← hid, ← hrpm, ← hrpd, hstore]
    exact check_mkStoreC_allow _ _ _ _ _ _ rfl rfl hcm hcd
  simp [validate_api_key, key_format_ok, hfind, hact2, hexp2, hip2, hcheck,
    apiKeyUser, hid, huid, hscopes]

lemma validate_step_deny (sha256hex : String → String) (rp : String)
    (ip : Option String) (r r2 : ApiKeyRecord) (db : List ApiKeyRecord)
    (rl : RateMap) (t c : Nat)
    (hfind : findByHash db (hash_api_key sha256hex ("nb_live_" ++ rp)) = some r2)
    (hcfg : sameConfig r r2)
    (hact : r.is_active = true) (hexp : isExpired r t = false)
    (hip : ipBlocked r ip = false)
    (hstore : getStore rl r.id = mkStoreC (t / 60) (t / 86400) c)
    (hge : r.rate_limit_rpm ≤ c) :
    (validate_api_key sha256hex db ("nb_live_" ++ rp) ip t rl).1 =
      ValidateResult.err ⟨429, "Rate limit exceeded: " ++
        toString r.rate_limit_rpm ++ " requests per minute",
        some (60 - t % 60)⟩ := by
  obtain ⟨hid, huid, hhash, hscopes, hrpm, hrpd, hact0, hexp0, hips0⟩ := hcfg
  have hact2 : r2.is_active = true := by rw [← hact0]; exact hact
  have hexp2 : isExpired r2 t = false := by
    rw [← isExpired_congr hexp0 t]; exact hexp
  have hip2 : ipBlocked r2 ip = false := by
    rw [← ipBlocked_congr hips0 ip]; exact hip
  have hcheck : check_rate_limit r2.rate_limit_rpm r2.rate_limit_rpd t
      (getStore rl r2.id) =
      (Except.error ⟨429, "Rate limit exceeded: " ++
          toString r.rate_limit_rpm ++ " requests per minute",
          some (60 - t % 60)⟩,
        ⟨cleanWindow (mkStoreC (t / 60) (t / 86400) c).minute (t / 60),
          cleanWindow (mkStoreC (t / 60) (t / 86400) c).day (t / 86400)⟩) := by
    rw [← hid, ← hrpm, ← hrpd, hstore]
    rw [hrpm]
    exact check_mkStoreC_deny _ _ _ _ _ _ rfl rfl (by omega)
  simp [validate_api_key, key_format_ok, hfind, hact2, hexp2, hip2, hcheck]

lemma findByHash_recordUse (db : List ApiKeyRecord) (r2 : ApiKeyRecord)
    (t : Nat) (hs : String)
    (hfind : findByHash db hs = some r2) :
    ∃ r3, findByHash (recordUse db r2 t) hs = some r3 ∧ sameConfig r2 r3 := by
  unfold findByHash recordUse
  unfold findByHash at hfind
  rw [List.filter_map]
  have hcong : List.filter ((fun r => r.key_hash == hs) ∘ (fun q =>
      if q.id == r2.id then
        { q with last_used_at := some t, total_requests := r2.total_requests + 1 }
      else q)) db = List.filter (fun r => r.key_hash == hs) db := by
    apply List.filter_congr
    intro a _
    by_cases h : a.id = r2.id
    · simp [h]
    · simp [h]
  rw [hcong, List.head?_map, hfind]
  refine ⟨_, rfl, ?_⟩
  by_cases h : (r2.id == r2.id) = true
  · simp only [Option.map_some, h, if_true]
    unfold sameConfig
    repeat constructor
  · simp at h

lemma validateSeqAt_full (sha256hex : String → String) (rp : String)
    (ip : Option String) (r : ApiKeyRecord)
    (hact : r.is_active = true) (hip : ipBlocked r ip = false) :
    ∀ (ts : List Nat) (t2 : Nat) (db : List ApiKeyRecord) (rl : RateMap)
      (c : Nat) (r2 : ApiKeyRecord),
      findByHash db (hash_api_key sha256hex ("nb_live_" ++ rp)) = some r2 →
      sameConfig r r2 →
      getStore rl r.id = mkStoreC (t2 / 60) (t2 / 86400) c →
      (∀ t ∈ ts, t / 60 = t2 / 60) →
      (∀ t ∈ ts, isExpired r t = false) →
      isExpired r t2 = false →
      c + ts.length = r.rate_limit_rpm →
      r.rate_limit_rpm ≤ r.rate_limit_rpd →
      validateSeqAt sha256hex ("nb_live_" ++ rp) ip (ts ++ [t2]) db rl =
        List.replicate ts.length (ValidateResult.user (apiKeyUser r)) ++
          [ValidateResult.err ⟨429, "Rate limit exceeded: " ++
            toString r.rate_limit_rpm ++ " requests per minute",
            some (60 - t2 % 60)⟩] := by
  intro ts
  induction ts with
  | nil =>
    intro t2 db rl c r2 hfind hcfg hstore hsame hexpts hexp2 hlen hrpd
    have hge : r.rate_limit_rpm ≤ c := by
      simp at hlen
      omega
    rcases hv : validate_api_key sha256hex db ("nb_live_" ++ rp) ip t2 rl
      with ⟨res, db2, rl2⟩
    have hres : res = ValidateResult.err ⟨429, "Rate limit exceeded: " ++
        toString r.rate_limit_rpm ++ " requests per minute",
        some (60 - t2 % 60)⟩ := by
      have hd := validate_step_deny sha256hex rp ip r r2 db rl t2 c hfind hcfg
        hact hexp2 hip hstore hge
      rw [hv] at hd
      exact hd
    simp [validateSeqAt, hv, hres]
  | cons t ts ih =>
    intro t2 db rl c r2 hfind hcfg hstore hsame hexpts hexp2 hlen hrpd
    have hts : t / 60 = t2 / 60 := hsame t (List.mem_cons_self _ _)
    have h86 : (60 * 1440 : Nat) = 86400 := by norm_num
    have hday : t / 86400 = t2 / 86400 := by
      rw [← h86, ← Nat.div_div_eq_div_mul t 60 1440, hts,
        Nat.div_div_eq_div_mul t2 60 1440, h86]
    have hstoret : getStore rl r.id = mkStoreC (t / 60) (t / 86400) c := by
      rw [hstore, hts, hday]
    have hcm : c < r.rate_limit_rpm := by
      simp at hlen
      omega
    have hcd : c < r.rate_limit_rpd := by omega
    have hstep := validate_step sha256hex rp ip r r2 db rl t c hfind hcfg hact
      (hexpts t (List.mem_cons_self _ _)) hip hstoret hcm hcd
    obtain ⟨r3, hfind3, hcfg23⟩ :=
      findByHash_recordUse db r2 t (hash_api_key sha256hex ("nb_live_" ++ rp)) hfind
    have hstore3 : getStore (setStore rl r.id (mkStoreC (t / 60) (t / 86400) (c + 1)))
        r.id = mkStoreC (t2 / 60) (t2 / 86400) (c + 1) := by
      rw [getStore_setStore, hts, hday]
    have htail := ih t2 (recordUse db r2 t)
      (setStore rl r.id (mkStoreC (t / 60) (t / 86400) (c + 1))) (c + 1) r3
      hfind3 (sameConfig_trans hcfg hcfg23) hstore3
      (fun x hx => hsame x (List.mem_cons_of_mem _ hx))
      (fun x hx => hexpts x (List.mem_cons_of_mem _ hx))
      hexp2 (by simp at hlen; omega) hrpd
    simp only [List.cons_append, validateSeqAt, hstep, htail]
    rw [List.length_cons, List.replicate_succ]
    simp
    exact htail

/-- C2: for a credential that is found by hash, active, non-expired at
every call time and IP-allowed, starting from fresh counters, a sequence
of `rpm` Admit calls whose timestamps all fall in one minute window (and
whose per-day limit is not the binding one, `rpm ≤ rpd`) all return the
authenticated user, and the `(rpm + 1)`-th call in that same minute
window is denied with the per-minute message and a `Retry-After` of
`60 - (now mod 60)` seconds. -/
theorem claim_C2 (sha256hex : String → String) (rp : String)
    (ip : Option String) (r : ApiKeyRecord) (db : List ApiKeyRecord)
    (rl : RateMap) (ts : List Nat) (t2 : Nat)
    (hfind : findByHash db (hash_api_key sha256hex ("nb_live_" ++ rp)) = some r)
    (hact : r.is_active = true)
    (hexpts : ∀ t ∈ ts, isExpired r t = false)
    (hexp2 : isExpired r t2 = false)
    (hip : ipBlocked r ip = false)
    (hfresh : getStore rl r.id = emptyRateStore)
    (hsame : ∀ t ∈ ts, t / 60 = t2 / 60)
    (hlen : ts.length = r.rate_limit_rpm)
    (hrpd : r.rate_limit_rpm ≤ r.rate_limit_rpd) :
    validateSeqAt sha256hex ("nb_live_" ++ rp) ip (ts ++ [t2]) db rl =
      List.replicate r.rate_limit_rpm (ValidateResult.user (apiKeyUser r)) ++
        [ValidateResult.err ⟨429, "Rate limit exceeded: " ++
          toString r.rate_limit_rpm ++ " requests per minute",
          some (60 - t2 % 60)⟩] := by
  have h0 : getStore rl r.id = mkStoreC (t2 / 60) (t2 / 86400) 0 := by
    rw [hfresh]
    simp [emptyRateStore, mkStoreC]
  have haux := validateSeqAt_full sha256hex rp ip r hact hip ts t2 db rl 0 r
    hfind (sameConfig_refl r) h0 hsame hexpts hexp2 (by omega) hrpd
  rw [hlen] at haux
  exact haux

/-- C2 witness: `rpm = 2`, `rpd = 5`, three calls at seconds 10, 20 and
50 of the first minute: allow, allow, deny(minute) with Retry-After 10. -/
theorem claim_C2_witness :
    validateSeqAt (fun s => s) ("nb_live_" ++ "k") none ([10, 20] ++ [50])
      [⟨"id1", "u1", "nb_live_k", "p", ["*"], 2, 5, true, none, none, 0, none, none⟩]
      [] =
      List.replicate 2 (ValidateResult.user (apiKeyUser
        ⟨"id1", "u1", "nb_live_k", "p", ["*"], 2, 5, true, none, none, 0, none, none⟩)) ++
        [ValidateResult.err ⟨429, "Rate limit exceeded: " ++ toString 2 ++
          " requests per minute", some (60 - 50 % 60)⟩] :=
  claim_C2 (fun s => s) "k" none
    ⟨"id1", "u1", "nb_live_k", "p", ["*"], 2, 5, true, none, none, 0, none, none⟩
    [⟨"id1", "u1", "nb_live_k", "p", ["*"], 2, 5, true, none, none, 0, none, none⟩]
    [] [10, 20] 50 (by decide) (by decide) (by decide) (by decide) (by decide)
    (by decide) (by decide) (by decide) (by decide)
